import Mathlib

/-!
Verification of the plane-interaction core of napari-tomoslice.

The data model and the operations below are a shallow embedding of
`src/napari_tomoslice/plane_controls.py` and
`src/napari_tomoslice/tomoslice.py`.  Points and vectors are rational
triples (the float arithmetic of the source is modelled exactly over ℚ).
Helpers that the source imports from outside `src/`
(`interactivity_utils`, napari geometry utilities) are modelled from the
spec, as marked in their doc comments; truly external inputs (the ray
cast against the volume box, the screen-space drag-distance projection)
are taken as function parameters, matching the host-viewer contract of
the spec.
-/

namespace TomoSliceModel

/-- Rational 3D point or vector, component order (depth, height, width)
matching the numpy array-axis convention of the source. -/
structure V3 where
  x : ℚ
  y : ℚ
  z : ℚ
deriving DecidableEq, Repr

def V3.add (a b : V3) : V3 := ⟨a.x + b.x, a.y + b.y, a.z + b.z⟩

def V3.sub (a b : V3) : V3 := ⟨a.x - b.x, a.y - b.y, a.z - b.z⟩

def V3.smul (c : ℚ) (a : V3) : V3 := ⟨c * a.x, c * a.y, c * a.z⟩

def V3.dot (a b : V3) : ℚ := a.x * b.x + a.y * b.y + a.z * b.z

/-- Axis-aligned bounding box given by its per-axis minima and maxima. -/
structure Box where
  lo : V3
  hi : V3
deriving DecidableEq, Repr

/-- Well-formedness of a box: per-axis minimum below maximum. -/
def Box.wf (b : Box) : Prop :=
  b.lo.x ≤ b.hi.x ∧ b.lo.y ≤ b.hi.y ∧ b.lo.z ≤ b.hi.z

instance (b : Box) : Decidable b.wf := by
  unfold Box.wf; infer_instance

/-- Mutable clipping-plane state of the volume layer
(napari `experimental_slicing_plane`). -/
structure ClippingPlane where
  position : V3
  normal : V3
  thickness : ℚ
  enabled : Bool
deriving DecidableEq, Repr

/-- Volume layer state: the 3D data shape, the attached clipping plane,
visibility, pointer interactivity, and the two derived bounding boxes the
source reads (`layer.extent.data` and
`layer._display_bounding_box(dims_displayed)`). -/
structure Layer where
  shape : ℕ × ℕ × ℕ
  plane : ClippingPlane
  visible : Bool
  interactive : Bool
  extent : Box
  displayBox : Box
deriving DecidableEq, Repr

/-- Pointer event data used by the source: `event.position` and
`event.view_direction` (the `dims_displayed` field is napari glue with no
geometric content here). -/
structure Event where
  position : V3
  view_direction : V3
deriving DecidableEq, Repr

/-- Ray cast against the volume bounding box, an external napari query
(`layer.get_ray_intersections`): either both intersection points or
nothing on a miss. -/
abbrev RayFn := V3 → V3 → Option (V3 × V3)

/-- Screen-space drag projection `drag_data_to_projected_distance`
(start, end, view direction, vector ↦ signed distance), an operation of
`interactivity_utils`, kept as a parameter: the claims hold for every
such projection. -/
abbrev DragDistFn := V3 → V3 → V3 → V3 → ℚ

/-- Modelled from the spec: `clampPointToBoundingBox` (napari helper not
under src/), per-axis clamp to [min, max] with numpy `clip` semantics
(upper bound wins when the bounds cross). -/
def clamp_point_to_bounding_box (p : V3) (b : Box) : V3 :=
  ⟨min (max p.x b.lo.x) b.hi.x,
   min (max p.y b.lo.y) b.hi.y,
   min (max p.z b.lo.z) b.hi.z⟩

/-- Modelled from the spec: `pointInBoundingBox` from
`interactivity_utils` (not under src/), per-axis inclusive containment
with an epsilon tolerance at the box faces. -/
def point_in_bounding_box (p : V3) (b : Box) (eps : ℚ) : Bool :=
  decide (b.lo.x - eps ≤ p.x) && decide (p.x ≤ b.hi.x + eps) &&
  decide (b.lo.y - eps ≤ p.y) && decide (p.y ≤ b.hi.y + eps) &&
  decide (b.lo.z - eps ≤ p.z) && decide (p.z ≤ b.hi.z + eps)

/-- Modelled from the spec: `intersectLineWithPlane`
(`experimental_slicing_plane.intersect_with_line`, external plane
method): solves for t with linePosition + t * lineDirection on the
infinite plane; none when the line is parallel to the plane (zero
denominator). -/
def intersect_with_line (plane : ClippingPlane)
    (line_position line_direction : V3) : Option V3 :=
  let denom := V3.dot line_direction plane.normal
  if denom = 0 then none
  else
    some (V3.add line_position
      (V3.smul (V3.dot (V3.sub plane.position line_position) plane.normal / denom)
        line_direction))

/-- Modelled from the spec: `point_in_layer_bounding_box` from
`interactivity_utils` (not under src/), containment of a point in the
layer's bounding box (derived from the volume), no tolerance. -/
def point_in_layer_bounding_box (p : V3) (layer : Layer) : Bool :=
  point_in_bounding_box p layer.extent 0

/-- Volume shape center with integer floor-division semantics,
`np.array(layer.data.shape) // 2` in the source. -/
def shape_center_floor (s : ℕ × ℕ × ℕ) : V3 :=
  ⟨((s.1 / 2 : ℕ) : ℚ), ((s.2.1 / 2 : ℕ) : ℚ), ((s.2.2 / 2 : ℕ) : ℚ)⟩

/-- Key axes of the axis-snap command. -/
inductive Axis
  | x
  | y
  | z
deriving DecidableEq, Repr

/-- The `axis_to_normal` mapping of `set_plane_normal_axis`
(plane_controls.py lines 83-87). -/
def axis_to_normal : Axis → V3
  | Axis.z => ⟨1, 0, 0⟩
  | Axis.y => ⟨0, 1, 0⟩
  | Axis.x => ⟨0, 0, 1⟩

/-- Embedding of `set_plane_normal_axis` (plane_controls.py lines
78-108).  The cursor position and view direction are the
`viewer.cursor` fields; `getRay` stands for
`layer.get_ray_intersections`.  A parallel line/plane intersection
(none) yields a non-finite point in the source, which is never inside
the bounding box, hence falls back to the center. -/
def set_plane_normal_axis (getRay : RayFn)
    (cursor_position cursor_view_direction : V3)
    (layer : Layer) (axis : Axis) : Layer :=
  let hit := getRay cursor_position cursor_view_direction
  let candidate : Option V3 :=
    match hit with
    | none => some (shape_center_floor layer.shape)
    | some (start_point, _end_point) =>
        intersect_with_line layer.plane start_point cursor_view_direction
  let new_plane_position : V3 :=
    match candidate with
    | some p =>
        if point_in_layer_bounding_box p layer then p
        else shape_center_floor layer.shape
    | none => shape_center_floor layer.shape
  { layer with
      plane := { layer.plane with
        position := new_plane_position
        normal := axis_to_normal axis } }

/-- Drag-gesture snapshot captured at an accepted pointer-down
(`original_plane_position`, `start_position` in the source). -/
structure DragState where
  original_plane_position : V3
  start_position : V3
deriving DecidableEq, Repr

/-- Entry of `shift_plane_along_normal` (plane_controls.py lines 16-47):
guard checks, then snapshot and interactivity off.  Returns the updated
layer and the drag snapshot, or the unchanged layer and none when a
guard fails. -/
def shift_plane_start (getRay : RayFn) (eps : ℚ)
    (layer : Layer) (ev : Event) : Layer × Option DragState :=
  if layer.plane.enabled && layer.visible then
    match getRay ev.position ev.view_direction with
    | none => (layer, none)
    | some (near_point, _far_point) =>
        match intersect_with_line layer.plane near_point ev.view_direction with
        | none => (layer, none)
        | some intersection =>
            if point_in_bounding_box intersection layer.extent eps then
              ({ layer with interactive := false },
               some { original_plane_position := layer.plane.position
                      start_position := ev.position })
            else (layer, none)
  else (layer, none)

/-- One pointer-move step of the drag loop (plane_controls.py lines
49-72): recompute the drag distance from the current event and the
current plane normal, offset the snapshotted original position, clamp to
the display bounding box, write back. -/
def shift_plane_move (dragDist : DragDistFn) (ds : DragState)
    (layer : Layer) (ev : Event) : Layer :=
  let current_plane_normal := layer.plane.normal
  let drag_distance :=
    dragDist ds.start_position ev.position ev.view_direction current_plane_normal
  let updated_position :=
    V3.add ds.original_plane_position (V3.smul drag_distance current_plane_normal)
  let clamped_plane_position :=
    clamp_point_to_bounding_box updated_position layer.displayBox
  { layer with plane := { layer.plane with position := clamped_plane_position } }

/-- The drag loop over a stream of pointer-move events. -/
def shift_plane_moves (dragDist : DragDistFn) (ds : DragState)
    (layer : Layer) (evs : List Event) : Layer :=
  evs.foldl (shift_plane_move dragDist ds) layer

/-- Full drag gesture of `shift_plane_along_normal`: guarded entry, the
move loop, then interactivity restored (plane_controls.py lines 74-75).
When a guard rejects the pointer-down, the layer is returned unchanged. -/
def shift_plane_along_normal (getRay : RayFn) (eps : ℚ) (dragDist : DragDistFn)
    (layer : Layer) (down : Event) (moves : List Event) : Layer :=
  match shift_plane_start getRay eps layer down with
  | (l, none) => l
  | (l, some ds) =>
      let l2 := shift_plane_moves dragDist ds l moves
      { l2 with interactive := true }

/-- The `if_plane_enabled` decorator of tomoslice.py lines 85-93: run
the callback only when the layer's clipping plane is enabled. -/
def if_plane_enabled (f : Layer → Layer) (layer : Layer) : Layer :=
  if layer.plane.enabled then f layer else layer

/-- The axis-snap flow as wired in `connect_callbacks`
(tomoslice.py lines 104-111): `set_plane_normal_axis` wrapped in
`if_plane_enabled`. -/
def guarded_set_plane_normal_axis (getRay : RayFn)
    (cursor_position cursor_view_direction : V3) (axis : Axis)
    (layer : Layer) : Layer :=
  if_plane_enabled
    (fun l => set_plane_normal_axis getRay cursor_position cursor_view_direction l axis)
    layer

/-- The drag flow as wired in `connect_callbacks`
(tomoslice.py lines 96-103): `shift_plane_along_normal` wrapped in
`if_plane_enabled`. -/
def guarded_shift_plane_along_normal (getRay : RayFn) (eps : ℚ)
    (dragDist : DragDistFn) (down : Event) (moves : List Event)
    (layer : Layer) : Layer :=
  if_plane_enabled
    (fun l => shift_plane_along_normal getRay eps dragDist l down moves)
    layer

/-- The `RenderingMode` StringEnum of tomoslice.py lines 15-17. -/
inductive RenderingMode
  | VOLUME
  | PLANE
deriving DecidableEq, Repr

/-- String value of a mode, `str(self._rendering_mode)` on the napari
StringEnum (lower-case member name). -/
def RenderingMode.toString : RenderingMode → String
  | RenderingMode.VOLUME => "volume"
  | RenderingMode.PLANE => "plane"

/-- ASCII lowercase of a string, character by character (the `.lower()`
call of the napari StringEnum lookup). -/
def lowercase (s : String) : String :=
  String.mk (s.data.map Char.toLower)

/-- Lookup `RenderingMode(value)` on the napari StringEnum:
case-insensitive match on the member value, ValueError (none) otherwise. -/
def RenderingMode.parse (s : String) : Option RenderingMode :=
  if lowercase s = "volume" then some RenderingMode.VOLUME
  else if lowercase s = "plane" then some RenderingMode.PLANE
  else none

/-- State of a `TomoSlice` widget together with the callback wiring
that `connect_callbacks` installs and the notifications the two psygnal
signals have emitted.  Each events.enabled / events.thickness
subscription is recorded with the payload it captured when it was
connected: `partial(signal.emit, self.rendering_mode)` and
`partial(signal.emit, self.plane_thickness)` evaluate their payload
argument eagerly at connect time (tomoslice.py lines 113-119). -/
structure TomoSliceState where
  volume_layer : Option Layer
  rendering_mode : RenderingMode
  mouse_drag_callbacks : ℕ
  axis_key_bindings : ℕ
  mode_event_subs : List String
  thickness_event_subs : List ℚ
  mode_emissions : List String
  thickness_emissions : List (Option ℚ)
deriving DecidableEq, Repr

/-- `TomoSlice.__init__` (tomoslice.py lines 24-28): no volume layer,
VOLUME mode, nothing connected, nothing emitted. -/
def TomoSliceState.init : TomoSliceState :=
  { volume_layer := none
    rendering_mode := RenderingMode.VOLUME
    mouse_drag_callbacks := 0
    axis_key_bindings := 0
    mode_event_subs := []
    thickness_event_subs := []
    mode_emissions := []
    thickness_emissions := [] }

/-- Bounding box of a freshly added layer, derived from the volume shape
(spec data model: the box is computed from the shape, not stored). -/
def data_bounding_box (s : ℕ × ℕ × ℕ) : Box :=
  { lo := ⟨0, 0, 0⟩
    hi := ⟨((s.1 - 1 : ℕ) : ℚ), ((s.2.1 - 1 : ℕ) : ℚ), ((s.2.2 - 1 : ℕ) : ℚ)⟩ }

/-- Embedding of `add_volume_layer` (tomoslice.py lines 69-83): the
plane parameters are enabled iff the current mode is PLANE, position
`np.array(tomogram.shape) / 2` (true division), normal (1,0,0),
thickness 5. -/
def add_volume_layer (s : TomoSliceState) (shape : ℕ × ℕ × ℕ) : TomoSliceState :=
  let render_as_plane := decide (s.rendering_mode = RenderingMode.PLANE)
  let plane_parameters : ClippingPlane :=
    { enabled := render_as_plane
      position := ⟨(shape.1 : ℚ) / 2, (shape.2.1 : ℚ) / 2, (shape.2.2 : ℚ) / 2⟩
      normal := ⟨1, 0, 0⟩
      thickness := 5 }
  let layer : Layer :=
    { shape := shape
      plane := plane_parameters
      visible := true
      interactive := true
      extent := data_bounding_box shape
      displayBox := data_bounding_box shape }
  { s with volume_layer := some layer }

/-- Embedding of `connect_callbacks` (tomoslice.py lines 95-119):
append the mouse-drag callback, bind the three axis keys, and connect
the plane's enabled / thickness change events to signal re-emitters
whose payloads are captured eagerly at connect time. -/
def connect_callbacks (s : TomoSliceState) : TomoSliceState :=
  match s.volume_layer with
  | none => s
  | some layer =>
      { s with
          mouse_drag_callbacks := s.mouse_drag_callbacks + 1
          axis_key_bindings := s.axis_key_bindings + 3
          mode_event_subs := s.mode_event_subs ++ [s.rendering_mode.toString]
          thickness_event_subs := s.thickness_event_subs ++ [layer.plane.thickness] }

/-- Embedding of `disconnect_callbacks` (tomoslice.py lines 121-124):
remove the mouse-drag callback and pop the three axis key bindings.
Nothing touches `mode_event_subs` or `thickness_event_subs`: the source
never disconnects the events.enabled / events.thickness connections. -/
def disconnect_callbacks (s : TomoSliceState) : TomoSliceState :=
  { s with
      mouse_drag_callbacks := s.mouse_drag_callbacks - 1
      axis_key_bindings := s.axis_key_bindings - 3 }

/-- Embedding of `open_tomogram` (tomoslice.py lines 56-63) without the
camera glue: add the volume layer, connect the callbacks. -/
def open_tomogram (s : TomoSliceState) (shape : ℕ × ℕ × ℕ) : TomoSliceState :=
  connect_callbacks (add_volume_layer s shape)

/-- Embedding of `close_tomogram` (tomoslice.py lines 65-67):
disconnect the callbacks, remove the volume layer. -/
def close_tomogram (s : TomoSliceState) : TomoSliceState :=
  let s1 := disconnect_callbacks s
  { s1 with volume_layer := none }

/-- Embedding of the `plane_thickness` setter (tomoslice.py lines
51-54).  Writing the plane thickness fires the napari events.thickness
event when the value actually changes, so each connected subscription
re-emits the payload it captured at connect time; then the setter's own
`self.plane_thickness_changed.emit()` emits with no argument at all
(payload none).  When no layer is open the attribute access fails and
nothing happens (not a claimed path). -/
def set_plane_thickness (s : TomoSliceState) (value : ℚ) : TomoSliceState :=
  match s.volume_layer with
  | none => s
  | some layer =>
      let layer2 := { layer with plane := { layer.plane with thickness := value } }
      let event_emissions : List (Option ℚ) :=
        if layer.plane.thickness = value then []
        else s.thickness_event_subs.map (fun q => some q)
      { s with
          volume_layer := some layer2
          thickness_emissions := s.thickness_emissions ++ event_emissions ++ [none] }

/-- Embedding of the `rendering_mode` setter (tomoslice.py lines
34-38), returning the state after the call and whether an exception
escaped.  `RenderingMode(value)` raises before any mutation on an
invalid string; on a valid string `_rendering_mode` is assigned first,
then `self.volume_layer.experimental_slicing_plane` raises
AttributeError when no layer is open, so the field update survives but
no signal is emitted.  On success, writing `enabled` fires the napari
events.enabled event when the value changes (connected subscriptions
re-emit their connect-time payloads), then the setter emits the new
mode string. -/
def set_rendering_mode (s : TomoSliceState) (value : String) :
    TomoSliceState × Bool :=
  match RenderingMode.parse value with
  | none => (s, true)
  | some m =>
      let s1 := { s with rendering_mode := m }
      match s1.volume_layer with
      | none => (s1, true)
      | some layer =>
          let new_enabled := decide (m = RenderingMode.PLANE)
          let event_emissions : List String :=
            if layer.plane.enabled = new_enabled then []
            else s1.mode_event_subs
          let layer2 := { layer with plane := { layer.plane with enabled := new_enabled } }
          ({ s1 with
               volume_layer := some layer2
               mode_emissions := s1.mode_emissions ++ event_emissions ++ [m.toString] },
           false)

/-! Helper lemmas shared by the claim theorems. -/

/-- Clamping lands inside the box whenever the box is well-formed. -/
theorem point_in_bounding_box_clamp (p : V3) (b : Box) (h : b.wf) :
    point_in_bounding_box (clamp_point_to_bounding_box p b) b 0 = true := by
  obtain ⟨hx, hy, hz⟩ := h
  simp only [point_in_bounding_box, clamp_point_to_bounding_box, Bool.and_eq_true,
    decide_eq_true_eq, sub_zero, add_zero]
  exact ⟨⟨⟨⟨⟨le_min (le_max_right _ _) hx, min_le_right _ _⟩,
    le_min (le_max_right _ _) hy⟩, min_le_right _ _⟩,
    le_min (le_max_right _ _) hz⟩, min_le_right _ _⟩

/-- The drag move loop never touches the display bounding box. -/
theorem shift_plane_moves_displayBox (dragDist : DragDistFn) (ds : DragState)
    (layer : Layer) (evs : List Event) :
    (shift_plane_moves dragDist ds layer evs).displayBox = layer.displayBox := by
  induction evs generalizing layer with
  | nil => rfl
  | cons e t ih =>
      show (shift_plane_moves dragDist ds (shift_plane_move dragDist ds layer e) t).displayBox
        = layer.displayBox
      rw [ih]
      rfl

/-! Claim theorems. -/

/-- C1: the axis-snap command `set_plane_normal_axis` sets the plane
normal to the reversed axis-aligned unit vector (x ↦ (0,0,1),
y ↦ (0,1,0), z ↦ (1,0,0)) and, when the cursor ray hits the box and the
line/plane intersection lies inside the layer bounding box, sets the
plane position to that intersection point. -/
theorem set_plane_normal_axis_reversed_mapping (getRay : RayFn)
    (cursor_position cursor_view_direction : V3) (layer : Layer) (axis : Axis)
    (sp fp p : V3)
    (hhit : getRay cursor_position cursor_view_direction = some (sp, fp))
    (hint : intersect_with_line layer.plane sp cursor_view_direction = some p)
    (hin : point_in_layer_bounding_box p layer = true) :
    (set_plane_normal_axis getRay cursor_position cursor_view_direction layer axis).plane.position
        = p ∧
    (set_plane_normal_axis getRay cursor_position cursor_view_direction layer axis).plane.normal
        = (match axis with
           | Axis.x => ⟨0, 0, 1⟩
           | Axis.y => ⟨0, 1, 0⟩
           | Axis.z => ⟨1, 0, 0⟩) := by
  constructor
  · simp [set_plane_normal_axis, hhit, hint, hin]
  · cases axis <;> simp [set_plane_normal_axis, axis_to_normal]

/-- Concrete witness for C1: the cursor ray enters the box at (0,20,30)
looking along depth, the plane x = 10 is hit at (10,20,30) inside the
box, and snapping to axis x places the plane there with normal (0,0,1). -/
def c1Plane : ClippingPlane :=
  { position := ⟨10, 5, 5⟩, normal := ⟨1, 0, 0⟩, thickness := 5, enabled := true }

def c1Layer : Layer :=
  { shape := (100, 100, 100)
    plane := c1Plane
    visible := true
    interactive := true
    extent := { lo := ⟨0, 0, 0⟩, hi := ⟨99, 99, 99⟩ }
    displayBox := { lo := ⟨0, 0, 0⟩, hi := ⟨99, 99, 99⟩ } }

def c1Ray : RayFn := fun _ _ => some (⟨0, 20, 30⟩, ⟨99, 20, 30⟩)

theorem set_plane_normal_axis_reversed_mapping_witness :
    (set_plane_normal_axis c1Ray ⟨0, 0, 0⟩ ⟨1, 0, 0⟩ c1Layer Axis.x).plane.position
        = ⟨10, 20, 30⟩ ∧
    (set_plane_normal_axis c1Ray ⟨0, 0, 0⟩ ⟨1, 0, 0⟩ c1Layer Axis.x).plane.normal
        = ⟨0, 0, 1⟩ := by
  have h := set_plane_normal_axis_reversed_mapping c1Ray ⟨0, 0, 0⟩ ⟨1, 0, 0⟩ c1Layer Axis.x
    ⟨0, 20, 30⟩ ⟨99, 20, 30⟩ ⟨10, 20, 30⟩ rfl
    (by norm_num [intersect_with_line, V3.dot, V3.sub, V3.smul, V3.add, c1Layer, c1Plane])
    (by norm_num [point_in_layer_bounding_box, point_in_bounding_box, c1Layer, c1Plane])
  exact ⟨h.1, h.2⟩

/-- C3: when the cursor ray misses the volume box entirely, or when the
line/plane intersection falls outside the layer bounding box, the
axis-snap command positions the plane at the floor-divided shape center
`shape // 2`; and snapping to axis z yields normal (1,0,0). -/
theorem axis_snap_center_fallback (getRay : RayFn)
    (cursor_position cursor_view_direction : V3) (layer : Layer) (axis : Axis) :
    (getRay cursor_position cursor_view_direction = none →
      (set_plane_normal_axis getRay cursor_position cursor_view_direction layer
        axis).plane.position = shape_center_floor layer.shape) ∧
    (∀ sp fp p, getRay cursor_position cursor_view_direction = some (sp, fp) →
      intersect_with_line layer.plane sp cursor_view_direction = some p →
      point_in_layer_bounding_box p layer = false →
      (set_plane_normal_axis getRay cursor_position cursor_view_direction layer
        axis).plane.position = shape_center_floor layer.shape) ∧
    (axis = Axis.z →
      (set_plane_normal_axis getRay cursor_position cursor_view_direction layer
        axis).plane.normal = ⟨1, 0, 0⟩) := by
  refine ⟨?_, ?_, ?_⟩
  · intro h
    simp [set_plane_normal_axis, h]
  · intro sp fp p hhit hint hout
    simp [set_plane_normal_axis, hhit, hint, hout]
  · intro h
    subst h
    simp [set_plane_normal_axis, axis_to_normal]

/-- Concrete witness for C3: shape (100,50,50), a ray that misses the
box, axis z: the plane lands at (50,25,25) with normal (1,0,0). -/
def c3Layer : Layer :=
  { shape := (100, 50, 50)
    plane := c1Plane
    visible := true
    interactive := true
    extent := { lo := ⟨0, 0, 0⟩, hi := ⟨99, 49, 49⟩ }
    displayBox := { lo := ⟨0, 0, 0⟩, hi := ⟨99, 49, 49⟩ } }

theorem axis_snap_center_fallback_witness :
    (set_plane_normal_axis (fun _ _ => none) ⟨0, 0, 0⟩ ⟨1, 0, 0⟩ c3Layer
        Axis.z).plane.position = ⟨50, 25, 25⟩ ∧
    (set_plane_normal_axis (fun _ _ => none) ⟨0, 0, 0⟩ ⟨1, 0, 0⟩ c3Layer
        Axis.z).plane.normal = ⟨1, 0, 0⟩ := by
  have h := axis_snap_center_fallback (fun _ _ => none) ⟨0, 0, 0⟩ ⟨1, 0, 0⟩ c3Layer Axis.z
  refine ⟨?_, h.2.2 rfl⟩
  rw [h.1 rfl]
  decide

/-- C4: a pointer-down is accepted only when the plane is enabled and
the layer visible, the ray hits the volume box, and the ray/plane
intersection lies inside the extent box (within epsilon); when any of
the three guards fails the entry returns the layer unchanged and takes
no snapshot. -/
theorem drag_entry_guard_no_state_change (getRay : RayFn) (eps : ℚ)
    (layer : Layer) (ev : Event)
    (hfail : ¬(layer.plane.enabled = true ∧ layer.visible = true)
      ∨ getRay ev.position ev.view_direction = none
      ∨ (∀ sp fp p, getRay ev.position ev.view_direction = some (sp, fp) →
          intersect_with_line layer.plane sp ev.view_direction = some p →
          point_in_bounding_box p layer.extent eps = false)) :
    shift_plane_start getRay eps layer ev = (layer, none) := by
  rcases hfail with h | h | h
  · have hb : (layer.plane.enabled && layer.visible) = false := by
      cases he : layer.plane.enabled <;> cases hv : layer.visible <;> simp_all
    simp [shift_plane_start, hb]
  · simp [shift_plane_start, h]
  · cases hray : getRay ev.position ev.view_direction with
    | none => simp [shift_plane_start, hray]
    | some pr =>
        obtain ⟨sp, fp⟩ := pr
        cases hint : intersect_with_line layer.plane sp ev.view_direction with
        | none => simp [shift_plane_start, hray, hint]
        | some p =>
            have hfalse := h sp fp p hray hint
            simp [shift_plane_start, hray, hint, hfalse]

/-- Concrete witness for C4: an invisible layer rejects the
pointer-down and nothing changes. -/
def c4Layer : Layer :=
  { c1Layer with visible := false }

theorem drag_entry_guard_no_state_change_witness :
    shift_plane_start c1Ray 0 c4Layer { position := ⟨0, 0, 0⟩, view_direction := ⟨1, 0, 0⟩ }
      = (c4Layer, none) :=
  drag_entry_guard_no_state_change c1Ray 0 c4Layer
    { position := ⟨0, 0, 0⟩, view_direction := ⟨1, 0, 0⟩ }
    (Or.inl (by decide))

/-- C2: during a drag, after any nonempty sequence of pointer-move
events (hence after every prefix of any sequence, i.e. at all times),
the position written to the clipping plane lies inside the layer's
display bounding box, for every drag-distance projection and every drag
snapshot, provided the box is well-formed. -/
theorem drag_position_always_in_display_box (dragDist : DragDistFn)
    (ds : DragState) (layer : Layer) (evs : List Event)
    (hwf : layer.displayBox.wf) (hne : evs ≠ []) :
    point_in_bounding_box (shift_plane_moves dragDist ds layer evs).plane.position
      layer.displayBox 0 = true := by
  obtain ⟨l, e, rfl⟩ := (List.eq_nil_or_concat evs).resolve_left hne
  have hsplit : shift_plane_moves dragDist ds layer (l.concat e)
      = shift_plane_move dragDist ds (shift_plane_moves dragDist ds layer l) e := by
    simp [shift_plane_moves, List.concat_eq_append, List.foldl_append]
  rw [hsplit]
  have hdb : (shift_plane_moves dragDist ds layer l).displayBox = layer.displayBox :=
    shift_plane_moves_displayBox dragDist ds layer l
  have hpos : (shift_plane_move dragDist ds (shift_plane_moves dragDist ds layer l) e).plane.position
      = clamp_point_to_bounding_box
          (V3.add ds.original_plane_position
            (V3.smul
              (dragDist ds.start_position e.position e.view_direction
                (shift_plane_moves dragDist ds layer l).plane.normal)
              (shift_plane_moves dragDist ds layer l).plane.normal))
          (shift_plane_moves dragDist ds layer l).displayBox := rfl
  rw [hpos, hdb]
  exact point_in_bounding_box_clamp _ _ hwf

/-- Concrete witness for C2: a huge drag distance is clamped back into
the box. -/
theorem drag_position_always_in_display_box_witness :
    point_in_bounding_box
      (shift_plane_moves (fun _ _ _ _ => 1000)
        { original_plane_position := ⟨10, 5, 5⟩, start_position := ⟨0, 0, 0⟩ }
        c1Layer [{ position := ⟨3, 0, 0⟩, view_direction := ⟨1, 0, 0⟩ }]).plane.position
      c1Layer.displayBox 0 = true :=
  drag_position_always_in_display_box (fun _ _ _ _ => 1000)
    { original_plane_position := ⟨10, 5, 5⟩, start_position := ⟨0, 0, 0⟩ }
    c1Layer [{ position := ⟨3, 0, 0⟩, view_direction := ⟨1, 0, 0⟩ }]
    (by constructor <;> norm_num [c1Layer]) (by simp)

/-- C5: each pointer-move of the drag loop writes to the plane position
the clamp, to the display bounding box, of the snapshotted original
position offset by the drag distance times the plane normal, where the
drag distance is recomputed from the current event's view direction and
the current plane normal (resampled at this step, not cached from
gesture start). -/
theorem drag_move_writes_clamped_update (dragDist : DragDistFn)
    (ds : DragState) (layer : Layer) (evs : List Event) (e : Event) :
    (shift_plane_moves dragDist ds layer (evs ++ [e])).plane.position =
      clamp_point_to_bounding_box
        (V3.add ds.original_plane_position
          (V3.smul
            (dragDist ds.start_position e.position e.view_direction
              (shift_plane_moves dragDist ds layer evs).plane.normal)
            (shift_plane_moves dragDist ds layer evs).plane.normal))
        (shift_plane_moves dragDist ds layer evs).displayBox := by
  have hsplit : shift_plane_moves dragDist ds layer (evs ++ [e])
      = shift_plane_move dragDist ds (shift_plane_moves dragDist ds layer evs) e := by
    simp [shift_plane_moves, List.foldl_append]
  rw [hsplit]
  rfl

/-- C6: when the clipping plane is disabled, the wrapped axis-snap
flow, the wrapped drag flow, and the drag flow's own entry all leave
the layer (in particular every clipping-plane field) unchanged. -/
theorem disabled_plane_flows_noop (getRay : RayFn) (eps : ℚ)
    (dragDist : DragDistFn) (cursor_position cursor_view_direction : V3)
    (axis : Axis) (down : Event) (moves : List Event) (layer : Layer)
    (h : layer.plane.enabled = false) :
    guarded_set_plane_normal_axis getRay cursor_position cursor_view_direction axis layer
        = layer ∧
    guarded_shift_plane_along_normal getRay eps dragDist down moves layer = layer ∧
    shift_plane_along_normal getRay eps dragDist layer down moves = layer := by
  refine ⟨?_, ?_, ?_⟩
  · simp [guarded_set_plane_normal_axis, if_plane_enabled, h]
  · simp [guarded_shift_plane_along_normal, if_plane_enabled, h]
  · simp [shift_plane_along_normal, shift_plane_start, h]

/-- Concrete witness for C6: a disabled plane makes both flows the
identity on a concrete layer. -/
def c6Layer : Layer :=
  { c1Layer with plane := { c1Plane with enabled := false } }

theorem disabled_plane_flows_noop_witness :
    guarded_set_plane_normal_axis c1Ray ⟨0, 0, 0⟩ ⟨1, 0, 0⟩ Axis.x c6Layer = c6Layer ∧
    guarded_shift_plane_along_normal c1Ray 0 (fun _ _ _ _ => 1)
      { position := ⟨0, 0, 0⟩, view_direction := ⟨1, 0, 0⟩ } [] c6Layer = c6Layer ∧
    shift_plane_along_normal c1Ray 0 (fun _ _ _ _ => 1) c6Layer
      { position := ⟨0, 0, 0⟩, view_direction := ⟨1, 0, 0⟩ } [] = c6Layer :=
  disabled_plane_flows_noop c1Ray 0 (fun _ _ _ _ => 1) ⟨0, 0, 0⟩ ⟨1, 0, 0⟩ Axis.x
    { position := ⟨0, 0, 0⟩, view_direction := ⟨1, 0, 0⟩ } [] c6Layer rfl

/-- C7 (code defect, evaluated at the failing input): closing a
tomogram removes the volume layer and detaches the mouse-drag callback
and the axis key bindings, but the events.enabled / events.thickness
subscriptions registered at open stay connected — `disconnect_callbacks`
never disconnects the two event connections made in
`connect_callbacks`. -/
theorem close_tomogram_keeps_event_subscriptions :
    (close_tomogram (open_tomogram TomoSliceState.init (100, 50, 50))).volume_layer = none ∧
    (close_tomogram (open_tomogram TomoSliceState.init (100, 50, 50))).mouse_drag_callbacks = 0 ∧
    (close_tomogram (open_tomogram TomoSliceState.init (100, 50, 50))).axis_key_bindings = 0 ∧
    (close_tomogram (open_tomogram TomoSliceState.init (100, 50, 50))).thickness_event_subs
      = [5] ∧
    (close_tomogram (open_tomogram TomoSliceState.init (100, 50, 50))).mode_event_subs
      = ["volume"] :=
  ⟨rfl, rfl, rfl, rfl, rfl⟩

/-- C8 (code defect, evaluated at the failing input): setting the plane
thickness from 5 to 10 forwards the value to the clipping plane, but no
emitted thickness notification carries the new value 10: the event-path
subscription re-emits the thickness captured at connect time (5) and
the setter's own emit carries no payload at all. -/
theorem set_plane_thickness_emission_payloads :
    ((set_plane_thickness (open_tomogram TomoSliceState.init (64, 64, 64)) 10).volume_layer.map
      (fun l => l.plane.thickness)) = some 10 ∧
    (set_plane_thickness (open_tomogram TomoSliceState.init (64, 64, 64)) 10).thickness_emissions
      = [some 5, none] ∧
    some (10 : ℚ) ∉
      (set_plane_thickness (open_tomogram TomoSliceState.init (64, 64, 64)) 10).thickness_emissions := by
  refine ⟨rfl, rfl, ?_⟩
  decide

/-- C9: a freshly added volume layer carries a clipping plane at the
true-division volume center shape / 2, with normal (1,0,0), thickness
5, and enabled exactly when the current rendering mode is PLANE. -/
theorem add_volume_layer_default_plane (s : TomoSliceState) (shape : ℕ × ℕ × ℕ) :
    ∃ layer, (add_volume_layer s shape).volume_layer = some layer ∧
      layer.plane.position
        = ⟨(shape.1 : ℚ) / 2, (shape.2.1 : ℚ) / 2, (shape.2.2 : ℚ) / 2⟩ ∧
      layer.plane.normal = ⟨1, 0, 0⟩ ∧
      layer.plane.thickness = 5 ∧
      (layer.plane.enabled = true ↔ s.rendering_mode = RenderingMode.PLANE) := by
  refine ⟨_, rfl, rfl, rfl, rfl, ?_⟩
  simp

/-- Concrete witness for C9: a (64,64,64) volume opened in VOLUME mode
gets plane position (32,32,32), normal (1,0,0), thickness 5, disabled. -/
theorem add_volume_layer_default_plane_witness :
    ∃ layer, (add_volume_layer TomoSliceState.init (64, 64, 64)).volume_layer = some layer ∧
      layer.plane.position = ⟨32, 32, 32⟩ ∧ layer.plane.normal = ⟨1, 0, 0⟩ ∧
      layer.plane.thickness = 5 ∧ layer.plane.enabled = false := by
  obtain ⟨L, h1, h2, h3, h4, h5⟩ :=
    add_volume_layer_default_plane TomoSliceState.init (64, 64, 64)
  refine ⟨L, h1, ?_, h3, h4, ?_⟩
  · rw [h2]
    norm_num
  · cases he : L.plane.enabled
    · rfl
    · exact absurd (h5.mp he) (by simp [TomoSliceState.init])

/-- C10: assigning a valid mode string while no volume layer is open
raises after `_rendering_mode` is already updated and before any signal
is emitted (the setter is not atomic on error); assigning an invalid
mode string raises before any field is changed. -/
theorem set_rendering_mode_error_paths (s : TomoSliceState) (value : String) :
    (∀ m, RenderingMode.parse value = some m → s.volume_layer = none →
      set_rendering_mode s value = ({ s with rendering_mode := m }, true)) ∧
    (RenderingMode.parse value = none → set_rendering_mode s value = (s, true)) := by
  constructor
  · intro m hm hl
    simp [set_rendering_mode, hm, hl]
  · intro h
    simp [set_rendering_mode, h]

/-- Concrete witness for C10: with no layer open, setting mode "plane"
updates the stored mode and raises; setting mode "nonsense" raises with
the state untouched. -/
theorem set_rendering_mode_error_paths_witness :
    set_rendering_mode TomoSliceState.init "plane"
      = ({ TomoSliceState.init with rendering_mode := RenderingMode.PLANE }, true) ∧
    set_rendering_mode TomoSliceState.init "nonsense" = (TomoSliceState.init, true) :=
  ⟨(set_rendering_mode_error_paths TomoSliceState.init "plane").1
      RenderingMode.PLANE (by decide) rfl,
   (set_rendering_mode_error_paths TomoSliceState.init "nonsense").2 (by decide)⟩

end TomoSliceModel
